import Mathlib

/-!
Shallow embedding of the transaction-relay core of the Fun-Monad-Runner-Game
repository.  Two source files hold variants of the same Express relay server:

* `src/backend/Server.js` — destination of every transfer is the operator's
  `OWNER_WALLET`, and the `/jump` handler awaits `processTransaction` and
  mirrors its outcome in the response.
* `src/unnamed/part_000` — destination of the transfer is the caller-supplied
  `address`, and the `/jump` handler replies `{success: true}` before the
  transaction promise settles.

Network interactions (`nonceManager.getNonce`, `provider.getFeeData`,
`nonceManager.sendTransaction`, `provider.getTransactionReceipt`) are modelled
as oracle inputs (`NetEnv`, `RetryEnv`): each field carries the value the
awaited call resolves with, or the message of the error it rejects with.
JavaScript `throw`/`catch` is modelled with `Except` threaded to the
surrounding `try` boundary.  The mutable module state (`pendingTransactions`
map, `usedNonces` set) is passed explicitly as `ServerState`.
-/

/-- Fee quote returned by `provider.getFeeData()` (Server.js line 76).  Each
component is `none` when the provider reports no value; JavaScript treats a
`0n` component as falsy too, which `truthy` captures. -/
structure FeeData where
  maxPriorityFeePerGas : Option Nat
  maxFeePerGas : Option Nat
deriving Repr, DecidableEq

/-- JavaScript truthiness of an optional numeric field: absent and zero are
both falsy. -/
def truthy : Option Nat → Bool
  | none => false
  | some n => n != 0

/-- The value stored in the `pendingTransactions` map
(Server.js line 94: `{ nonce, score, address }`). -/
structure TxData where
  nonce : Nat
  score : Nat
  address : String
deriving Repr, DecidableEq

/-- The transaction object built at Server.js lines 82–89 and handed to
`nonceManager.sendTransaction`. -/
structure Tx where
  «to» : String
  value : Nat
  gasLimit : Nat
  nonce : Nat
  maxPriorityFeePerGas : Nat
  maxFeePerGas : Nat
deriving Repr, DecidableEq

/-- `ethers.parseEther(0.0001 ether)` in wei (Server.js line 84). -/
def parseEther00001 : Nat := 100000000000000

/-- The object `processTransaction` resolves with (Server.js lines 103 and
107): `{success: true, transactionHash}` or `{success: false, error}`. -/
structure RelayResult where
  success : Bool
  transactionHash : Option String
  error : Option String
deriving Repr, DecidableEq

/-- The module-level mutable state of Server.js lines 63–64:
`pendingTransactions` (a `Map`, modelled as an insertion-ordered association
list with unique keys) and `usedNonces` (a `Set`, modelled as a list). -/
structure ServerState where
  pendingTransactions : List (String × TxData)
  usedNonces : List Nat
deriving Repr, DecidableEq

/-- Network responses consumed by one `processTransaction` call, in program
order: the nonce fetch (line 70), the fee fetch (line 76) and the broadcast
(line 91).  `Except.error m` means the awaited call rejects with message `m`. -/
structure NetEnv where
  nonceResp : Except String Nat
  feeResp : Except String FeeData
  sendResp : Except String String
deriving Repr

/-- Environment configuration: `process.env.OWNER_WALLET` (Server.js line 81). -/
structure Config where
  ownerWallet : String
deriving Repr, DecidableEq

/-- `Map.prototype.set`: update in place when the key exists, else append
(insertion order preserved). -/
def mapSet (m : List (String × TxData)) (k : String) (v : TxData) :
    List (String × TxData) :=
  if m.any (fun p => p.1 == k) then
    m.map (fun p => if p.1 == k then (k, v) else p)
  else m ++ [(k, v)]

/-- `Map.prototype.delete` (keys are unique, so filtering removes at most
the one entry). -/
def mapDelete (m : List (String × TxData)) (k : String) : List (String × TxData) :=
  m.filter (fun p => p.1 != k)

/-- `Map.prototype.has`. -/
def hasKey (m : List (String × TxData)) (k : String) : Bool :=
  m.any (fun p => p.1 == k)

/-- Observable outcome of one `processTransaction` call: the resolved
`RelayResult`, the transaction object built and handed to the broadcaster
(`none` when the call failed before line 82 built one), the module state
afterwards, and the console lines emitted. -/
structure ProcOut where
  result : RelayResult
  sent : Option Tx
  state : ServerState
  logs : List String
deriving Repr

/-- `processTransaction(score, address)` of `src/backend/Server.js`
lines 67–109.  The `try` block runs nonce fetch, `usedNonces` logging gate,
fee fetch with the hard failure on an incomplete quote (lines 77–79),
transaction construction with `to: OWNER_WALLET` (lines 82–89), broadcast, and
registry insertion keyed by the returned hash (line 94); the `catch` at
lines 105–108 converts any thrown error into `{success:false, error}`. -/
def processTransaction (cfg : Config) (env : NetEnv) (score : Nat)
    (address : String) (st : ServerState) : ProcOut :=
  match env.nonceResp with
  | .error e =>
      { result := { success := false, transactionHash := none, error := some e },
        sent := none, state := st, logs := ["❌ Transaction failed: " ++ e] }
  | .ok nonce =>
    let nonceLogs :=
      if st.usedNonces.contains nonce then []
      else ["🚀 Using Nonce: " ++ toString nonce ++ " for score " ++ toString score]
    let st1 :=
      if st.usedNonces.contains nonce then st
      else { st with usedNonces := st.usedNonces ++ [nonce] }
    match env.feeResp with
    | .error e =>
        { result := { success := false, transactionHash := none, error := some e },
          sent := none, state := st1,
          logs := nonceLogs ++ ["❌ Transaction failed: " ++ e] }
    | .ok feeData =>
      if !truthy feeData.maxPriorityFeePerGas || !truthy feeData.maxFeePerGas then
        { result := { success := false, transactionHash := none,
                      error := some "⚠️ Could not fetch gas fee data." },
          sent := none, state := st1,
          logs := nonceLogs ++
            ["❌ Transaction failed: ⚠️ Could not fetch gas fee data."] }
      else
        let tx : Tx :=
          { «to» := cfg.ownerWallet,
            value := parseEther00001,
            gasLimit := 21000,
            nonce := nonce,
            maxPriorityFeePerGas := feeData.maxPriorityFeePerGas.getD 0,
            maxFeePerGas := feeData.maxFeePerGas.getD 0 }
        match env.sendResp with
        | .error e =>
            { result := { success := false, transactionHash := none, error := some e },
              sent := some tx, state := st1,
              logs := nonceLogs ++ ["❌ Transaction failed: " ++ e] }
        | .ok hash =>
            { result := { success := true, transactionHash := some hash, error := none },
              sent := some tx,
              state := { st1 with
                pendingTransactions := mapSet st1.pendingTransactions hash
                  { nonce := nonce, score := score, address := address } },
              logs := nonceLogs ++
                ["✅ Transaction sent for jump score " ++ toString score ++ ": " ++ hash] }

/-- Receipt delivered by `transactionResponse.wait()`. -/
structure Receipt where
  blockNumber : Nat
deriving Repr, DecidableEq

/-- The detached confirmation callback attached at Server.js lines 96–101:
`wait().then(receipt => ...delete...).catch(error => ...log...)`.  `outcome`
is how the wait settles.  It returns the updated module state and the console
lines; it has no channel back to the request that created it. -/
def confirmationWatcher (hash : String) (outcome : Except String Receipt)
    (st : ServerState) : ServerState × List String :=
  match outcome with
  | .ok receipt =>
      ({ st with pendingTransactions := mapDelete st.pendingTransactions hash },
       ["✅ Confirmed in block " ++ toString receipt.blockNumber ++ ": " ++ hash])
  | .error e => (st, ["❌ Transaction failed after sending: " ++ e])

/-- Fixture: a config with a concrete operator wallet. -/
def cfg0 : Config := { ownerWallet := "0xOWNER" }

/-- Fixture: a complete fee quote. -/
def feeOk : FeeData := { maxPriorityFeePerGas := some 1, maxFeePerGas := some 10 }

/-- Fixture: all three network calls succeed. -/
def envOk : NetEnv :=
  { nonceResp := .ok 7, feeResp := .ok feeOk, sendResp := .ok "0xHASH" }

/-- Fixture: the fee quote lacks its priority component. -/
def envNoFee : NetEnv :=
  { nonceResp := .ok 7,
    feeResp := .ok { maxPriorityFeePerGas := none, maxFeePerGas := some 10 },
    sendResp := .ok "0xHASH" }

/-- Fixture: empty module state. -/
def st0 : ServerState := { pendingTransactions := [], usedNonces := [] }

/-- JavaScript `x || null` on an optional string: an absent or empty string
becomes null (Server.js lines 143–144). -/
def orNull : Option String → Option String
  | some s => if s == "" then none else some s
  | none => none

/-- JavaScript `x || d` on an optional string with a string default
(Server.js line 148). -/
def orDefault (d : String) : Option String → String
  | some s => if s == "" then d else s
  | none => d

/-- The HTTP body sent by a `/jump` handler, with its status code.  Fields the
handler's object literal omits are `none` / `[]`. -/
structure JumpResponse where
  status : Nat
  success : Bool
  message : String
  transactionHash : Option String
  error : Option String
  logs : List String
deriving Repr, DecidableEq

/-- The `/jump` handler of `src/backend/Server.js` lines 134–152: it awaits
`processTransaction(score, address)` and answers 202 with the attempt's
success flag, hash-or-null, error-or-null and log lines. -/
def jumpHandler (cfg : Config) (env : NetEnv) (score : Nat) (address : String)
    (st : ServerState) : JumpResponse × ServerState :=
  let out := processTransaction cfg env score address st
  ({ status := 202,
     success := out.result.success,
     message :=
       if out.result.success then "Transaction sent successfully."
       else "Transaction failed.",
     transactionHash := orNull out.result.transactionHash,
     error := orNull out.result.error,
     logs :=
       ["Score: " ++ toString score,
        "Sender: " ++ address,
        "Transaction Hash: " ++ orDefault "N/A" out.result.transactionHash,
        if out.result.success then "Status: ✅ Success" else "Status: ❌ Failed"] },
   out.state)

namespace Part000

/-- `processTransaction(score, address)` of `src/unnamed/part_000`
lines 49–89.  Identical to the backend version except that the transaction's
destination is the caller-supplied `address` (line 64), so it takes no
`Config`. -/
def processTransaction (env : NetEnv) (score : Nat) (address : String)
    (st : ServerState) : ProcOut :=
  match env.nonceResp with
  | .error e =>
      { result := { success := false, transactionHash := none, error := some e },
        sent := none, state := st, logs := ["❌ Transaction failed: " ++ e] }
  | .ok nonce =>
    let nonceLogs :=
      if st.usedNonces.contains nonce then []
      else ["🚀 Using Nonce: " ++ toString nonce ++ " for score " ++ toString score]
    let st1 :=
      if st.usedNonces.contains nonce then st
      else { st with usedNonces := st.usedNonces ++ [nonce] }
    match env.feeResp with
    | .error e =>
        { result := { success := false, transactionHash := none, error := some e },
          sent := none, state := st1,
          logs := nonceLogs ++ ["❌ Transaction failed: " ++ e] }
    | .ok feeData =>
      if !truthy feeData.maxPriorityFeePerGas || !truthy feeData.maxFeePerGas then
        { result := { success := false, transactionHash := none,
                      error := some "⚠️ Could not fetch gas fee data." },
          sent := none, state := st1,
          logs := nonceLogs ++
            ["❌ Transaction failed: ⚠️ Could not fetch gas fee data."] }
      else
        let tx : Tx :=
          { «to» := address,
            value := parseEther00001,
            gasLimit := 21000,
            nonce := nonce,
            maxPriorityFeePerGas := feeData.maxPriorityFeePerGas.getD 0,
            maxFeePerGas := feeData.maxFeePerGas.getD 0 }
        match env.sendResp with
        | .error e =>
            { result := { success := false, transactionHash := none, error := some e },
              sent := some tx, state := st1,
              logs := nonceLogs ++ ["❌ Transaction failed: " ++ e] }
        | .ok hash =>
            { result := { success := true, transactionHash := some hash, error := none },
              sent := some tx,
              state := { st1 with
                pendingTransactions := mapSet st1.pendingTransactions hash
                  { nonce := nonce, score := score, address := address } },
              logs := nonceLogs ++
                ["✅ Transaction sent for jump score " ++ toString score ++ ": " ++ hash] }

/-- The `/jump` handler of `src/unnamed/part_000` lines 114–124: it starts
`processTransaction`, immediately answers 202 `{success: true, message:
"Transaction queued for processing."}`, and only then awaits the promise; the
response does not depend on the attempt's outcome. -/
def jumpHandler (env : NetEnv) (score : Nat) (address : String)
    (st : ServerState) : JumpResponse × ServerState :=
  let out := processTransaction env score address st
  ({ status := 202,
     success := true,
     message := "Transaction queued for processing.",
     transactionHash := none,
     error := none,
     logs := [] },
   out.state)

end Part000

/-- Oracle for one `retryPendingTransactions` pass:
`receiptOf h = true` when `provider.getTransactionReceipt(h)` resolves with a
receipt (and `false` when it resolves with `null`), and `procEnvs k` is the
network environment consumed by the k-th (0-based) `processTransaction`
invocation the pass makes. -/
structure RetryEnv where
  receiptOf : String → Bool
  procEnvs : Nat → NetEnv

/-- Observable outcome of one `retryPendingTransactions` pass: the module
state afterwards, the (score, address) argument pairs of the
`processTransaction` invocations it made, in order, and the final
`foundPending` flag. -/
structure RetryOut where
  state : ServerState
  calls : List (Nat × String)
  foundPending : Bool
deriving Repr, DecidableEq

/-- One iteration step of the `for (const [txHash, data] of
pendingTransactions)` loop at Server.js lines 116–126.  A JavaScript `Map`
iterator yields entries in insertion order, including entries inserted during
the iteration, so the next entry is the first one in the current map whose key
has not been yielded before (no key is deleted and later re-inserted here).
If the entry has no receipt it is re-driven through `processTransaction` with
its recorded score and address (the entry itself is NOT deleted); if it has a
receipt it is deleted.  `fuel` bounds the number of iterations, since entries
inserted by a resend are themselves visited. -/
def retryLoop (cfg : Config) (env : RetryEnv) :
    Nat → List String → ServerState → List (Nat × String) → Bool → RetryOut
  | 0, _, st, calls, found => { state := st, calls := calls, foundPending := found }
  | fuel + 1, visited, st, calls, found =>
    match st.pendingTransactions.find? (fun p => !(visited.contains p.1)) with
    | none => { state := st, calls := calls, foundPending := found }
    | some (txHash, data) =>
      if !(env.receiptOf txHash) then
        let out := processTransaction cfg (env.procEnvs calls.length)
          data.score data.address st
        retryLoop cfg env fuel (txHash :: visited) out.state
          (calls ++ [(data.score, data.address)]) true
      else
        retryLoop cfg env fuel (txHash :: visited)
          { st with pendingTransactions := mapDelete st.pendingTransactions txHash }
          calls found

/-- `retryPendingTransactions()` of `src/backend/Server.js` lines 112–131:
walk the pending map, resend entries without a receipt, delete entries with
one. -/
def retryPendingTransactions (cfg : Config) (env : RetryEnv) (fuel : Nat)
    (st : ServerState) : RetryOut :=
  retryLoop cfg env fuel [] st [] false

/-- The transaction count the RPC provider reports for the relay wallet: what
`nonceManager.getNonce()` resolves with (Server.js line 70), advanced when a
broadcast transaction enters the chain. -/
structure NetState where
  txCount : Nat
deriving Repr, DecidableEq

/-- Control state of one in-flight `processTransaction` call, abstracted to
the steps that touch the shared network state.  `pc = 0`: about to await
`getNonce()` (line 70); `pc = 1`: about to await `getFeeData()` (line 76);
`pc = 2`: about to await `sendTransaction` (line 91); `pc = 3`: done.
`nonce` is the value the call obtained from the sequencer. -/
structure CallState where
  pc : Nat
  nonce : Option Nat
deriving Repr, DecidableEq

/-- Run one call's next awaited step.  Nothing in `processTransaction`
serializes `getNonce` with respect to other calls: the read at `pc = 0` just
copies the currently reported count. -/
def callStep (net : NetState) (c : CallState) : NetState × CallState :=
  if c.pc = 0 then (net, { pc := 1, nonce := some net.txCount })
  else if c.pc = 1 then (net, { c with pc := 2 })
  else if c.pc = 2 then ({ txCount := net.txCount + 1 }, { c with pc := 3 })
  else (net, c)

/-- Interleave two concurrent `processTransaction` calls A and B under a
schedule: `false` runs A's next awaited step, `true` runs B's. -/
def runSched (sched : List Bool) (net : NetState) (a b : CallState) :
    NetState × CallState × CallState :=
  match sched with
  | [] => (net, a, b)
  | s :: rest =>
    if s then
      let nb := callStep net b
      runSched rest nb.1 a nb.2
    else
      let na := callStep net a
      runSched rest na.1 na.2 b

/-- A fresh call: it has executed nothing yet. -/
def callStart : CallState := { pc := 0, nonce := none }

/-- Fixture: a pending-map entry as recorded by an earlier broadcast. -/
def d0 : TxData := { nonce := 5, score := 42, address := "0xABC" }

/-- Fixture: the resend made by a reconciler pass succeeds and is assigned
the fresh hash `0xH2`. -/
def envResend : NetEnv :=
  { nonceResp := .ok 7, feeResp := .ok feeOk, sendResp := .ok "0xH2" }

/-- Fixture: the network has no receipt for `0xH1` but already reports one
for the freshly broadcast `0xH2`. -/
def envRetry : RetryEnv :=
  { receiptOf := fun h => h == "0xH2", procEnvs := fun _ => envResend }

/-- Fixture: the transaction the backend builds under `envOk`. -/
def txO : Tx :=
  { «to» := "0xOWNER", value := parseEther00001, gasLimit := 21000, nonce := 7,
    maxPriorityFeePerGas := 1, maxFeePerGas := 10 }

/-- Fixture: the transaction the part_000 variant builds under `envOk` for
caller address `0xABC`. -/
def txA : Tx :=
  { «to» := "0xABC", value := parseEther00001, gasLimit := 21000, nonce := 7,
    maxPriorityFeePerGas := 1, maxFeePerGas := 10 }

/-- A key is never present after `Map.delete` of that key. -/
theorem hasKey_mapDelete (m : List (String × TxData)) (k : String) :
    hasKey (mapDelete m k) k = false := by
  simp only [hasKey, mapDelete]
  rw [List.any_eq_false]
  intro x hx
  rw [List.mem_filter] at hx
  simpa using hx.2

/-- C1: the spec requires pairwise-distinct nonces for concurrent
`processTransaction` calls, but the code's nonce fetch is an unserialized
read of the provider-reported count: under the interleaving in which both
calls await `getNonce()` before either broadcasts, both calls obtain the same
nonce `n`. -/
theorem C1_duplicate_nonce_interleaving (n : Nat) :
    (runSched [false, true, false, false, true, true]
        { txCount := n } callStart callStart).2.1.nonce = some n ∧
    (runSched [false, true, false, false, true, true]
        { txCount := n } callStart callStart).2.2.nonce = some n := by
  constructor <;> rfl

/-- C2 counterexample: a reconciler pass over the registry holding only the
receipt-less entry `0xH1` (resend succeeding with fresh hash `0xH2`, for
which the network already reports a receipt) ends with the old entry `0xH1`
still present and no new entry present — the claim says the old entry is
removed and exactly one new entry is present. -/
theorem C2_old_entry_not_removed :
    (retryPendingTransactions cfg0 envRetry 3
        { pendingTransactions := [("0xH1", d0)], usedNonces := [] }).state.pendingTransactions
      = [("0xH1", d0)] ∧
    (retryPendingTransactions cfg0 envRetry 3
        { pendingTransactions := [("0xH1", d0)], usedNonces := [] }).calls
      = [(42, "0xABC")] := by
  constructor <;> rfl

/-- C5 counterexample: the `processTransaction` of `src/unnamed/part_000`
builds its transaction with the caller-supplied address `0xABC` as
destination, which differs from the operator's custody wallet — the claim
says the destination is never the caller-supplied address. -/
theorem C5_variant_sends_to_caller :
    (Part000.processTransaction envOk 42 "0xABC" st0).sent = some txA ∧
    txA.«to» = "0xABC" ∧ "0xABC" ≠ cfg0.ownerWallet := by
  refine ⟨rfl, rfl, by decide⟩

/-- C6 counterexample: the `/jump` handler of `src/unnamed/part_000` answers
`success = true` even when the relay attempt fails (here: incomplete fee
quote), masking the failure — the claim says failures are never masked as
success. -/
theorem C6_variant_masks_failure :
    (Part000.jumpHandler envNoFee 42 "0xABC" st0).1.success = true ∧
    (Part000.processTransaction envNoFee 42 "0xABC" st0).result.success = false := by
  constructor <;> rfl

/-- C4: when the fetched fee quote is missing its priority-fee or its max-fee
component, `processTransaction` returns a failed result carrying the error
detail, no transaction is built, and the pending registry is unchanged. -/
theorem C4_missing_fee_fails_no_insert (cfg : Config) (env : NetEnv)
    (score : Nat) (address : String) (st : ServerState) (n : Nat) (f : FeeData)
    (hn : env.nonceResp = .ok n) (hf : env.feeResp = .ok f)
    (hmiss : f.maxPriorityFeePerGas = none ∨ f.maxFeePerGas = none) :
    (processTransaction cfg env score address st).result =
      { success := false, transactionHash := none,
        error := some "⚠️ Could not fetch gas fee data." } ∧
    (processTransaction cfg env score address st).sent = none ∧
    (processTransaction cfg env score address st).state.pendingTransactions =
      st.pendingTransactions := by
  have hcond : (!truthy f.maxPriorityFeePerGas || !truthy f.maxFeePerGas) = true := by
    rcases hmiss with h | h <;> simp [h, truthy]
  simp [processTransaction, hn, hf, hcond, apply_ite ServerState.pendingTransactions]

/-- C4 witness: under `envNoFee` (priority component absent) the call fails
with the fee error and the registry stays empty. -/
theorem C4_missing_fee_fails_no_insert_witness :
    (processTransaction cfg0 envNoFee 42 "0xABC" st0).result =
      { success := false, transactionHash := none,
        error := some "⚠️ Could not fetch gas fee data." } ∧
    (processTransaction cfg0 envNoFee 42 "0xABC" st0).sent = none ∧
    (processTransaction cfg0 envNoFee 42 "0xABC" st0).state.pendingTransactions =
      st0.pendingTransactions :=
  C4_missing_fee_fails_no_insert cfg0 envNoFee 42 "0xABC" st0 7
    { maxPriorityFeePerGas := none, maxFeePerGas := some 10 }
    rfl rfl (Or.inl rfl)

/-- C7: the confirmation callback removes the handle from the pending
registry when the wait resolves with a receipt, and on a wait error it leaves
the module state completely unchanged; in neither case does it surface
anything to a caller. -/
theorem C7_watcher_removes_on_inclusion_keeps_on_error (st : ServerState)
    (hash : String) (r : Receipt) (e : String) :
    hasKey (confirmationWatcher hash (.ok r) st).1.pendingTransactions hash = false ∧
    (confirmationWatcher hash (.error e) st).1 = st := by
  exact ⟨hasKey_mapDelete st.pendingTransactions hash, rfl⟩

/-- C9: `processTransaction` never throws to its caller: for every network
outcome it returns a plain result, either success with a hash and no error,
or failure with no hash and an error message. -/
theorem C9_always_returns_result (cfg : Config) (env : NetEnv) (score : Nat)
    (address : String) (st : ServerState) :
    ((processTransaction cfg env score address st).result.success = true ∧
     (processTransaction cfg env score address st).result.error = none ∧
     (processTransaction cfg env score address st).result.transactionHash.isSome = true) ∨
    ((processTransaction cfg env score address st).result.success = false ∧
     (processTransaction cfg env score address st).result.transactionHash = none ∧
     (processTransaction cfg env score address st).result.error.isSome = true) := by
  obtain ⟨nr, fr, sr⟩ := env
  rcases nr with e | n
  · right; exact ⟨rfl, rfl, rfl⟩
  rcases fr with e | f
  · right; exact ⟨rfl, rfl, rfl⟩
  cases hb : (!truthy f.maxPriorityFeePerGas || !truthy f.maxFeePerGas)
  · rcases sr with e | h
    · right; simp [processTransaction, hb]
    · left; simp [processTransaction, hb]
  · right; simp [processTransaction, hb]

/-- C10: the `usedNonces` set only gates a console log line: two module
states differing only in `usedNonces` yield, for the same inputs and network
responses, the same relay result, the same built transaction, and the same
pending-registry contents. -/
theorem C10_usedNonces_noninterference (cfg : Config) (env : NetEnv)
    (score : Nat) (address : String) (p : List (String × TxData))
    (u1 u2 : List Nat) :
    (processTransaction cfg env score address
        { pendingTransactions := p, usedNonces := u1 }).result =
      (processTransaction cfg env score address
        { pendingTransactions := p, usedNonces := u2 }).result ∧
    (processTransaction cfg env score address
        { pendingTransactions := p, usedNonces := u1 }).sent =
      (processTransaction cfg env score address
        { pendingTransactions := p, usedNonces := u2 }).sent ∧
    (processTransaction cfg env score address
        { pendingTransactions := p, usedNonces := u1 }).state.pendingTransactions =
      (processTransaction cfg env score address
        { pendingTransactions := p, usedNonces := u2 }).state.pendingTransactions := by
  obtain ⟨nr, fr, sr⟩ := env
  rcases nr with e | n
  · exact ⟨rfl, rfl, rfl⟩
  rcases fr with e | f
  · refine ⟨rfl, rfl, ?_⟩
    simp only [processTransaction]
    split_ifs <;> rfl
  rcases sr with e | h <;>
    cases hb : (!truthy f.maxPriorityFeePerGas || !truthy f.maxFeePerGas) <;>
      refine ⟨?_, ?_, ?_⟩ <;>
        (simp only [processTransaction, hb]
         try rfl
         try split_ifs <;> rfl)

/-- C3: when the broadcast succeeds with a fresh handle `h`, the call
resolves successfully with `h` and appends exactly one registry entry, keyed
by `h`, recording the allocated nonce, the submitted score and the
originating address. -/
theorem C3_success_inserts_entry (cfg : Config) (env : NetEnv) (n : Nat)
    (f : FeeData) (h : String) (score : Nat) (address : String)
    (st : ServerState)
    (hn : env.nonceResp = .ok n) (hf : env.feeResp = .ok f)
    (hp : truthy f.maxPriorityFeePerGas = true)
    (hm : truthy f.maxFeePerGas = true)
    (hs : env.sendResp = .ok h)
    (hfresh : hasKey st.pendingTransactions h = false) :
    (processTransaction cfg env score address st).result =
      { success := true, transactionHash := some h, error := none } ∧
    (processTransaction cfg env score address st).state.pendingTransactions =
      st.pendingTransactions ++
        [(h, { nonce := n, score := score, address := address })] ∧
    (processTransaction cfg env score address st).state.pendingTransactions.length =
      st.pendingTransactions.length + 1 := by
  have hb : (!truthy f.maxPriorityFeePerGas || !truthy f.maxFeePerGas) = false := by
    simp [hp, hm]
  have hany : (st.pendingTransactions.any fun p => p.1 == h) = false := hfresh
  refine ⟨?_, ?_, ?_⟩ <;>
    (simp only [processTransaction, hn, hf, hs, hb, mapSet]
     try rfl
     try (split_ifs <;> simp_all))

/-- C3 witness: under `envOk` from the empty state, the call succeeds with
handle `0xHASH` and the registry becomes the single matching entry. -/
theorem C3_success_inserts_entry_witness :
    (processTransaction cfg0 envOk 42 "0xABC" st0).result =
      { success := true, transactionHash := some "0xHASH", error := none } ∧
    (processTransaction cfg0 envOk 42 "0xABC" st0).state.pendingTransactions =
      [("0xHASH", { nonce := 7, score := 42, address := "0xABC" })] := by
  have ht := C3_success_inserts_entry cfg0 envOk 7 feeOk "0xHASH" 42 "0xABC" st0
    rfl rfl rfl rfl rfl rfl
  exact ⟨ht.1, by simpa using ht.2.1⟩

/-- C8: a reconciler pass over a registry holding one entry whose handle has
a receipt removes that entry and makes zero `processTransaction`
invocations. -/
theorem C8_receipt_entry_removed_no_resend (cfg : Config) (env : RetryEnv)
    (h : String) (d : TxData) (u : List Nat) (k : Nat)
    (hr : env.receiptOf h = true) :
    retryPendingTransactions cfg env (k + 2)
        { pendingTransactions := [(h, d)], usedNonces := u } =
      { state := { pendingTransactions := [], usedNonces := u },
        calls := [], foundPending := false } := by
  simp [retryPendingTransactions, retryLoop, hr, mapDelete, List.find?]

/-- C8 witness: with a receipt reported for `0xH1`, the pass deletes the
entry and resends nothing. -/
theorem C8_receipt_entry_removed_no_resend_witness :
    retryPendingTransactions cfg0
        { receiptOf := fun h => h == "0xH1", procEnvs := fun _ => envResend } 2
        { pendingTransactions := [("0xH1", d0)], usedNonces := [] } =
      { state := { pendingTransactions := [], usedNonces := [] },
        calls := [], foundPending := false } :=
  C8_receipt_entry_removed_no_resend cfg0
    { receiptOf := fun h => h == "0xH1", procEnvs := fun _ => envResend }
    "0xH1" d0 [] 0 rfl

/-- C5 (amended): in `src/backend/Server.js` every transaction built by
`processTransaction` has the operator's custody wallet as destination, the
fixed constant value, and the fixed constant gas limit, regardless of score
and address; in the `src/unnamed/part_000` variant the destination is instead
the caller-supplied address, with the same fixed value and gas limit. -/
theorem C5_fixed_destination_value_gas (cfg : Config) (env : NetEnv)
    (score : Nat) (address : String) (st : ServerState) :
    (∀ t, (processTransaction cfg env score address st).sent = some t →
      t.«to» = cfg.ownerWallet ∧ t.value = parseEther00001 ∧ t.gasLimit = 21000) ∧
    (∀ t, (Part000.processTransaction env score address st).sent = some t →
      t.«to» = address ∧ t.value = parseEther00001 ∧ t.gasLimit = 21000) := by
  obtain ⟨nr, fr, sr⟩ := env
  constructor <;>
    · intro t ht
      rcases nr with e | n
      · exact absurd ht (by simp [processTransaction, Part000.processTransaction])
      rcases fr with e | f
      · exact absurd ht (by simp [processTransaction, Part000.processTransaction])
      cases hb : (!truthy f.maxPriorityFeePerGas || !truthy f.maxFeePerGas)
      · rcases sr with e | h <;>
          · simp only [processTransaction, Part000.processTransaction, hb,
              Bool.false_eq_true, if_false] at ht
            cases ht
            exact ⟨rfl, rfl, rfl⟩
      · simp [processTransaction, Part000.processTransaction, hb] at ht

/-- C5 witness: under `envOk` the backend call builds `txO` (destination the
operator wallet) and the variant builds `txA` (destination the caller
address), both with the fixed value and gas limit. -/
theorem C5_fixed_destination_value_gas_witness :
    (txO.«to» = cfg0.ownerWallet ∧ txO.value = parseEther00001 ∧
      txO.gasLimit = 21000) ∧
    (txA.«to» = "0xABC" ∧ txA.value = parseEther00001 ∧ txA.gasLimit = 21000) :=
  ⟨(C5_fixed_destination_value_gas cfg0 envOk 42 "0xABC" st0).1 txO rfl,
   (C5_fixed_destination_value_gas cfg0 envOk 42 "0xABC" st0).2 txA rfl⟩

/-- C6 (amended): the backend `/jump` handler answers only after the
broadcast attempt resolves, mirroring the attempt's outcome: the response
success flag equals the attempt's, a (non-empty) returned hash is carried,
and a (non-empty) error detail is carried; the `src/unnamed/part_000` variant
instead always answers success with a fixed queued message, regardless of the
attempt's outcome. -/
theorem C6_backend_response_reflects_outcome (cfg : Config) (env : NetEnv)
    (score : Nat) (address : String) (st : ServerState) :
    (jumpHandler cfg env score address st).1.success =
      (processTransaction cfg env score address st).result.success ∧
    (∀ h, (processTransaction cfg env score address st).result.transactionHash = some h →
      h ≠ "" → (jumpHandler cfg env score address st).1.transactionHash = some h) ∧
    (∀ e, (processTransaction cfg env score address st).result.error = some e →
      e ≠ "" → (jumpHandler cfg env score address st).1.error = some e) ∧
    (Part000.jumpHandler env score address st).1.success = true ∧
    (Part000.jumpHandler env score address st).1.message =
      "Transaction queued for processing." := by
  refine ⟨rfl, ?_, ?_, rfl, rfl⟩
  · intro h hh hne
    show orNull (processTransaction cfg env score address st).result.transactionHash = some h
    rw [hh]
    simp [orNull, hne]
  · intro e he hne
    show orNull (processTransaction cfg env score address st).result.error = some e
    rw [he]
    simp [orNull, hne]

/-- C6 witness: under `envOk` the backend response carries the returned hash,
and under the failing `envNoFee` it carries the error detail. -/
theorem C6_backend_response_reflects_outcome_witness :
    (jumpHandler cfg0 envOk 42 "0xABC" st0).1.transactionHash = some "0xHASH" ∧
    (jumpHandler cfg0 envNoFee 42 "0xABC" st0).1.error =
      some "⚠️ Could not fetch gas fee data." :=
  ⟨(C6_backend_response_reflects_outcome cfg0 envOk 42 "0xABC" st0).2.1
      "0xHASH" rfl (by decide),
   (C6_backend_response_reflects_outcome cfg0 envNoFee 42 "0xABC" st0).2.2.1
      "⚠️ Could not fetch gas fee data." rfl (by decide)⟩

/-- C2 (amended): a reconciler pass over a registry holding one entry `h1`
that lacks a receipt invokes `processTransaction` exactly once, with the
entry's original score and address; on broadcast success the new entry is
inserted under the new handle `h2`, but the old entry is NOT removed — and
because the pass also visits entries inserted during the iteration, the new
entry is itself examined and (here, where the network already reports a
receipt for `h2`) deleted again, leaving exactly the original entry. -/
theorem C2_reconciler_resends_without_removing (cfg : Config) (h1 h2 : String)
    (d : TxData) (u : List Nat) (n p m : Nat) (env : RetryEnv) (k : Nat)
    (hr1 : env.receiptOf h1 = false) (hr2 : env.receiptOf h2 = true)
    (hne : h1 ≠ h2)
    (he : env.procEnvs 0 =
      { nonceResp := .ok n,
        feeResp := .ok { maxPriorityFeePerGas := some p, maxFeePerGas := some m },
        sendResp := .ok h2 })
    (hp : p ≠ 0) (hm : m ≠ 0) :
    retryPendingTransactions cfg env (k + 3)
        { pendingTransactions := [(h1, d)], usedNonces := u } =
      { state := { pendingTransactions := [(h1, d)],
                   usedNonces := if u.contains n then u else u ++ [n] },
        calls := [(d.score, d.address)], foundPending := true } := by
  have hb : (!truthy (some p) || !truthy (some m)) = false := by
    simp [truthy, hp, hm]
  have hne2 : h2 ≠ h1 := Ne.symm hne
  by_cases hc : n ∈ u <;>
    simp [retryPendingTransactions, retryLoop, processTransaction, mapSet, mapDelete,
      hasKey, hr1, hr2, he, hb, hc, hne, hne2, List.find?]

/-- C2 witness: the concrete pass of `C2_old_entry_not_removed`, via the
general statement. -/
theorem C2_reconciler_resends_without_removing_witness :
    retryPendingTransactions cfg0 envRetry 3
        { pendingTransactions := [("0xH1", d0)], usedNonces := [] } =
      { state := { pendingTransactions := [("0xH1", d0)], usedNonces := [7] },
        calls := [(42, "0xABC")], foundPending := true } := by
  have ht := C2_reconciler_resends_without_removing cfg0 "0xH1" "0xH2" d0 [] 7 1 10
    envRetry 0 rfl rfl (by decide) rfl (by decide) (by decide)
  simpa using ht
